import Mathlib

/-!
Shallow embedding of the frame-buffer lifecycle and capture-loop state machine
of `src/src/alliedcam.c` (Allied Vision camera simple interface API).

The transport runtime (VmbC) is out of scope for the library and is modelled
by an environment `Env` of pure result oracles: each transport entry point the
library calls is represented by the error code (and value) the transport would
return for that call.  Library functions become pure functions from the
environment and the handle state to an error code, the updated handle state,
and a trace of the observable actions performed (transport calls, buffer
allocations and frees), in the order the C code performs them.

Pointers are modelled as natural numbers (addresses); a nullable pointer is an
`Option`.  String feature names of the C code are represented by the inductive
`FeatName`.  Machine integers of the C code (`size_t`, `uint32_t`,
`VmbInt64_t`) are modelled as `Nat`/`Int`; none of the embedded code paths
depend on overflow behaviour.
-/

/-- Error codes of the transport (`VmbError_t`).  Only the codes the embedded
code produces or tests are named; `other n` stands for any further
transport-specific code passed through unchanged. -/
inductive VmbError where
  | success
  | notInitialized
  | notFound
  | badParameter
  | busy
  | resources
  | internalFault
  | moreData
  | other (n : Nat)
deriving DecidableEq, Repr

/-- Feature and command names the embedded code passes to the transport's
named-feature interface. -/
inductive FeatName where
  | width
  | height
  | binningHorizontal
  | binningVertical
  | pixelFormat
  | acquisitionStart
  | acquisitionStop
deriving DecidableEq, Repr

/-- One frame descriptor (`VmbFrame_t`): buffer pointer, buffer length and the
three opaque context slots (`context[0]` = owning handle back-reference,
`context[1]` = user data, `context[2]` = user callback), each modelled as an
address. -/
structure VmbFrame where
  buffer : Nat
  bufferSize : Nat
  ctxHandle : Nat
  ctxData : Nat
  ctxCb : Nat
deriving DecidableEq, Repr, Inhabited

/-- The frame buffer set (`AlliedFrameBuffer_s`): one aligned allocation split
into frames, plus the descriptor array and the announced flag.  `buffer` and
`frames` are nullable pointers in C, hence `Option` here. -/
structure AlliedFrameBuffer where
  alloc_size : Nat
  alignment : Nat
  num_frames : Nat
  buffer : Option Nat
  frames : Option (List VmbFrame)
  announced : Bool
deriving DecidableEq, Repr

/-- The per-camera handle (`_AlliedCameraHandle_s`).  The transport-native
device reference field is abstracted into `Env`; `framebuf` is a nullable
pointer in C, hence `Option`. -/
structure CameraHandle where
  acquiring : Bool
  streaming : Bool
  framebuf : Option AlliedFrameBuffer
deriving DecidableEq, Repr

/-- Observable actions of the embedded code, in program order: transport calls
and heap operations on the frame buffer set. -/
inductive Act where
  | frameAnnounce (i : Nat)
  | captureStart
  | captureEnd
  | frameQueue (i : Nat)
  | frameRequeue (f : VmbFrame)
  | commandRun (c : FeatName)
  | queueFlush
  | revokeAll
  | intSet (f : FeatName) (v : Nat)
  | enumSet (f : FeatName) (v : Nat)
  | alignmentQuery
  | payloadQuery
  | cameraOpen
  | cameraClose
  | allocBuf (size alignment : Nat)
  | freeBuf
  | freeFrames
  | allocFrames (n : Nat)
deriving DecidableEq, Repr

/-- Transport oracle: the outcome each transport entry point would report when
the embedded code calls it, together with the ambient configuration (payload
size, buffer alignment), allocator outcomes, and build-time constants. -/
structure Env where
  /-- Result of `VmbCameraInfoQueryByHandle` inside the alignment query. -/
  alignInfoErr : VmbError
  /-- Whether the `StreamBufferAlignment` feature read succeeds. -/
  alignFeatureOk : Bool
  /-- Alignment value the `StreamBufferAlignment` feature reports. -/
  alignVal : Nat
  /-- Result of `VmbPayloadSizeGet`. -/
  payloadErr : VmbError
  /-- Payload size `VmbPayloadSizeGet` reports. -/
  payloadSize : Nat
  /-- Whether `aligned_alloc` succeeds. -/
  allocOk : Bool
  /-- Address `aligned_alloc` returns on success. -/
  freshPtr : Nat
  /-- Whether the `malloc` of the frame descriptor array succeeds. -/
  framesMallocOk : Bool
  /-- The compile-time constant `ALLIED_MAX_FRAMES` (set by the build; it is
  not defined under `src/`). -/
  maxFrames : Nat
  /-- Address of the camera handle structure (stored in `context[0]` and
  written to the caller's out pointer by open). -/
  selfPtr : Nat
  /-- Result of `VmbFrameAnnounce` for frame index `i`. -/
  announceErr : Nat → VmbError
  /-- Result of `VmbCaptureStart`. -/
  captureStartErr : VmbError
  /-- Result of `VmbCaptureFrameQueue` for frame index `i`. -/
  queueErr : Nat → VmbError
  /-- Result of `VmbFeatureCommandRun` for a given command. -/
  commandErr : FeatName → VmbError
  /-- Result of `VmbCaptureEnd`. -/
  captureEndErr : VmbError
  /-- Number of times `VmbFrameRevokeAll` fails before it succeeds (the stop
  spin loop is modelled under the assumption that revocation eventually
  succeeds, per the accepted-risk design note of the spec). -/
  revokeFailures : Nat
  /-- Result of `VmbCameraOpen`. -/
  cameraOpenErr : VmbError
  /-- Result of `VmbCameraInfoQuery` (by id) inside the packet-size tuning
  step of open. -/
  infoQueryErr : VmbError
  /-- Result of `VmbCameraClose` in close. -/
  cameraCloseErr : VmbError
  /-- Result of `VmbFeatureIntSet` for a given feature. -/
  intSetErr : FeatName → VmbError
  /-- Result of `VmbFeatureEnumSet` for a given feature. -/
  enumSetErr : FeatName → VmbError
  /-- Result of `VmbFeatureIntGet` for a given feature. -/
  intGetErr : FeatName → VmbError
  /-- Value `VmbFeatureIntGet` reports for a given feature. -/
  intGetVal : FeatName → Int
  /-- Result of `allied_list_cameras` in the open path taken when `id` is
  `NULL`. -/
  listErr : VmbError
  /-- Whether the `strdup` of the first camera id succeeds. -/
  strdupOk : Bool
  /-- Whether the `malloc` of the handle structure succeeds. -/
  handleMallocOk : Bool
  /-- Whether the `malloc` of the frame buffer structure succeeds. -/
  framebufMallocOk : Bool
  /-- Value modelling the indeterminate content of the local `err` variable of
  open when it is read before being assigned (C undefined behaviour on the
  `goto cleanup` paths taken before any assignment to `err`). -/
  uninitErr : VmbError

/-- Effective buffer alignment computed by `VmbGetBufferAlignmentByHandle`
once `VmbCameraInfoQueryByHandle` has succeeded: the `StreamBufferAlignment`
feature value, with a fallback of 1 when the feature read fails and a clamp of
values below 1 up to 1. -/
def Env.alignment (env : Env) : Nat :=
  if env.alignFeatureOk then max 1 env.alignVal else 1

/-- Trace of the `VmbFrameRevokeAll` spin loop of `allied_stop_capture`: the
loop body runs only while `announced` holds, and each iteration of the
condition performs one revoke call; after `failures` failed calls the next one
succeeds and the loop exits.  When `announced` is false the revoke call is
never made. -/
def revokeCalls (announced : Bool) (failures : Nat) : List Act :=
  if announced then List.replicate (failures + 1) Act.revokeAll else []

/-- Embedding of `allied_free_framebuf`: frees the descriptor array if
present; with `frame_only` set, stops there, otherwise also frees the buffer
allocation and zeroes the structure (`memset`). -/
def allied_free_framebuf (fb : AlliedFrameBuffer) (frame_only : Bool) :
    AlliedFrameBuffer × List Act :=
  let (fb1, t1) :=
    match fb.frames with
    | some _ => ({ fb with frames := none }, [Act.freeFrames])
    | none => (fb, ([] : List Act))
  if frame_only then (fb1, t1)
  else
    let t2 :=
      match fb1.buffer with
      | some _ => t1 ++ [Act.freeBuf]
      | none => t1
    ({ alloc_size := 0, alignment := 0, num_frames := 0,
       buffer := none, frames := none, announced := false }, t2)

/-- Embedding of `allied_alloc_framebuf`: queries the buffer alignment, floors
the requested size to an alignment multiple, and allocates the aligned buffer,
recording the new buffer pointer, allocation size and alignment in the frame
buffer set. -/
def allied_alloc_framebuf (env : Env) (init : Bool) (fb : AlliedFrameBuffer)
    (bufsize : Nat) : VmbError × AlliedFrameBuffer × List Act :=
  if init = false then (.notInitialized, fb, [])
  else if bufsize = 0 then (.badParameter, fb, [])
  else if env.alignInfoErr ≠ .success then (env.alignInfoErr, fb, [Act.alignmentQuery])
  else
    let alignment := env.alignment
    let bufsize' := bufsize / alignment * alignment
    if env.allocOk = false then (.resources, fb, [Act.alignmentQuery])
    else
      (.success,
       { fb with buffer := some env.freshPtr, alloc_size := bufsize',
                 alignment := alignment },
       [Act.alignmentQuery, Act.allocBuf bufsize' alignment])

/-- Final phase of `allied_stop_capture`: the unconditional queue flush, the
revoke spin loop guarded by `announced`, and the clearing of `announced`,
always returning success.  When `framebuf` is `NULL` the C code would
dereference a null pointer here; that state is unreachable through the public
interface and the model treats the flag read and write as no-ops there. -/
def stopFlushPhase (env : Env) (h : CameraHandle) (t : List Act) :
    VmbError × CameraHandle × List Act :=
  let ann :=
    match h.framebuf with
    | some fb => fb.announced
    | none => false
  (.success,
   { h with framebuf := h.framebuf.map (fun fb => { fb with announced := false }) },
   t ++ [Act.queueFlush] ++ revokeCalls ann env.revokeFailures)

/-- Streaming phase of `allied_stop_capture`: when `streaming` is set, run
`VmbCaptureEnd`, propagating its error before `streaming` is cleared. -/
def stopStreamPhase (env : Env) (h : CameraHandle) (t : List Act) :
    VmbError × CameraHandle × List Act :=
  if h.streaming then
    if env.captureEndErr ≠ .success then (env.captureEndErr, h, t ++ [Act.captureEnd])
    else stopFlushPhase env { h with streaming := false } (t ++ [Act.captureEnd])
  else stopFlushPhase env h t

/-- Embedding of `allied_stop_capture`.  Mirrors the C control flow: early
success return when neither acquiring nor streaming; `AcquisitionStop` with
error propagation before `acquiring` is cleared; then the streaming and flush
phases. -/
def allied_stop_capture (env : Env) (init : Bool) (h : CameraHandle) :
    VmbError × CameraHandle × List Act :=
  if init = false then (.notInitialized, h, [])
  else if !h.acquiring && !h.streaming then (.success, h, [])
  else
    if h.acquiring then
      if env.commandErr .acquisitionStop ≠ .success then
        (env.commandErr .acquisitionStop, h, [Act.commandRun .acquisitionStop])
      else
        stopStreamPhase env { h with acquiring := false }
          [Act.commandRun .acquisitionStop]
    else stopStreamPhase env h []

/-- Announce loop of `allied_start_capture`: announces frames `i`,
`i + 1`, ... for `k` iterations; on the first failure the loop exits with that
error, and after each successful announce the `announced` flag is set. -/
def announceFrames (env : Env) :
    AlliedFrameBuffer → Nat → Nat → VmbError × AlliedFrameBuffer × List Act
  | fb, _, 0 => (.success, fb, [])
  | fb, i, k + 1 =>
    if env.announceErr i ≠ .success then (env.announceErr i, fb, [Act.frameAnnounce i])
    else
      match announceFrames env { fb with announced := true } (i + 1) k with
      | (e, fb', t) => (e, fb', Act.frameAnnounce i :: t)

/-- Queue loop of `allied_start_capture`: queues frames `i`, `i + 1`, ... for
`k` iterations, breaking out with the error of the first failing
`VmbCaptureFrameQueue`. -/
def queueFrames (env : Env) : Nat → Nat → VmbError × List Act
  | _, 0 => (.success, [])
  | i, k + 1 =>
    if env.queueErr i ≠ .success then (env.queueErr i, [Act.frameQueue i])
    else
      match queueFrames env (i + 1) k with
      | (e, t) => (e, Act.frameQueue i :: t)

/-- Embedding of `allied_start_capture`: announce all frames (setting
`announced` after each success), start the capture engine and set `streaming`,
store the callback and user-data pointers into every descriptor's context
slots, queue all frames, and run `AcquisitionStart`, setting `acquiring`.
On any failure the code jumps to `err_cleanup`, calls `allied_stop_capture`
(discarding its result) and returns the triggering error. -/
def allied_start_capture (env : Env) (init : Bool) (h : CameraHandle)
    (cbPtr udPtr : Nat) : VmbError × CameraHandle × List Act :=
  if init = false then (.notInitialized, h, [])
  else
    match h.framebuf with
    | none => (.resources, h, [])
    | some fb =>
      let r1 := announceFrames env fb 0 fb.num_frames
      let e1 := r1.1
      let fb1 := r1.2.1
      let t1 := r1.2.2
      let hAnn := { h with framebuf := some fb1 }
      if e1 ≠ .success then
        let s := allied_stop_capture env init hAnn
        (e1, s.2.1, t1 ++ s.2.2)
      else if env.captureStartErr ≠ .success then
        let s := allied_stop_capture env init hAnn
        (env.captureStartErr, s.2.1, t1 ++ [Act.captureStart] ++ s.2.2)
      else
        let fb2 := { fb1 with frames := fb1.frames.map (List.map
          (fun f => { f with ctxData := udPtr, ctxCb := cbPtr })) }
        let h2 := { h with streaming := true, framebuf := some fb2 }
        let rq := queueFrames env 0 fb2.num_frames
        let e3 := rq.1
        let t3 := rq.2
        if e3 ≠ .success then
          let s := allied_stop_capture env init h2
          (e3, s.2.1, t1 ++ [Act.captureStart] ++ t3 ++ s.2.2)
        else if env.commandErr .acquisitionStart ≠ .success then
          let s := allied_stop_capture env init h2
          (env.commandErr .acquisitionStart, s.2.1,
           t1 ++ [Act.captureStart] ++ t3 ++ [Act.commandRun .acquisitionStart] ++ s.2.2)
        else
          (.success, { h2 with acquiring := true },
           t1 ++ [Act.captureStart] ++ t3 ++ [Act.commandRun .acquisitionStart])

/-- Condition under which `allied_realloc_framebuffer` rebuilds the frame
descriptor array: no frames yet, or the size of the first descriptor no longer
matches the payload size. -/
def framesNeedRebuild (fb : AlliedFrameBuffer) (payloadSize : Nat) : Bool :=
  match fb.frames with
  | none => true
  | some fs => (fs.headD default).bufferSize ≠ payloadSize

/-- Embedding of `allied_realloc_framebuffer`: query alignment and payload
size, stop capture (propagating its error), reallocate the buffer only when
the alignment changed or the allocation has become smaller than the payload,
and rebuild the descriptor array only when the payload size changed (or no
array exists), slicing the buffer into `alloc_size / payloadSize` frames
(modulo `ALLIED_MAX_FRAMES + 1`) and clearing `announced`.  The buffer
mutations are performed on the state returned by the successful stop, whose
`acquiring` and `streaming` flags are false.  The `framebuf = NULL` case is a
failed C `assert`, unreachable through the public interface; the model returns
the state unchanged there. -/
def allied_realloc_framebuffer (env : Env) (init : Bool) (h : CameraHandle) :
    VmbError × CameraHandle × List Act :=
  if env.alignInfoErr ≠ .success then (env.alignInfoErr, h, [Act.alignmentQuery])
  else
    let alignment := env.alignment
    if env.payloadErr ≠ .success then
      (env.payloadErr, h, [Act.alignmentQuery, Act.payloadQuery])
    else
      let payloadSize := env.payloadSize
      let t0 := [Act.alignmentQuery, Act.payloadQuery]
      let s := allied_stop_capture env init h
      if s.1 ≠ .success then (s.1, s.2.1, t0 ++ s.2.2)
      else
        let h1 := s.2.1
        match h1.framebuf with
        | none => (.success, h1, t0 ++ s.2.2)
        | some fb =>
          let step2 : VmbError × AlliedFrameBuffer × List Act :=
            if fb.alignment ≠ alignment ∨ fb.alloc_size < payloadSize then
              let alloc_size := fb.alloc_size / alignment * alignment
              let alloc_size :=
                if alloc_size > payloadSize then alloc_size else payloadSize
              let rF := allied_free_framebuf fb false
              let rA := allied_alloc_framebuf env init rF.1 alloc_size
              (rA.1, rA.2.1, rF.2 ++ rA.2.2)
            else (.success, fb, [])
          let e2 := step2.1
          let fb2 := step2.2.1
          let t2 := step2.2.2
          if e2 ≠ .success then
            (e2, { h1 with framebuf := some fb2 }, t0 ++ s.2.2 ++ t2)
          else if framesNeedRebuild fb2 payloadSize then
            let rT := allied_free_framebuf fb2 true
            let fb3 := rT.1
            let num_frames := fb3.alloc_size / payloadSize % (env.maxFrames + 1)
            if env.framesMallocOk = false then
              (.resources, { h1 with framebuf := some fb3 },
               t0 ++ s.2.2 ++ t2 ++ rT.2)
            else
              let frames := (List.range num_frames).map (fun i =>
                ({ buffer := fb3.buffer.getD 0 + i * payloadSize,
                   bufferSize := payloadSize,
                   ctxHandle := env.selfPtr,
                   ctxData := 0, ctxCb := 0 } : VmbFrame))
              let fb4 := { fb3 with frames := some frames,
                                    num_frames := num_frames,
                                    announced := false }
              (.success, { h1 with framebuf := some fb4 },
               t0 ++ s.2.2 ++ t2 ++ rT.2 ++ [Act.allocFrames num_frames])
          else (.success, { h1 with framebuf := some fb2 }, t0 ++ s.2.2 ++ t2)

/-- Embedding of `allied_set_image_size`: reject zero dimensions, refuse with
busy while acquiring or streaming, then write the `Width` and `Height`
features and reconcile the frame buffer. -/
def allied_set_image_size (env : Env) (init : Bool) (h : CameraHandle)
    (width height : Nat) : VmbError × CameraHandle × List Act :=
  if init = false then (.notInitialized, h, [])
  else if width = 0 ∨ height = 0 then (.badParameter, h, [])
  else if h.acquiring ∨ h.streaming then (.busy, h, [])
  else if env.intSetErr .width ≠ .success then
    (env.intSetErr .width, h, [Act.intSet .width width])
  else if env.intSetErr .height ≠ .success then
    (env.intSetErr .height, h, [Act.intSet .width width, Act.intSet .height height])
  else
    let r := allied_realloc_framebuffer env init h
    (r.1, r.2.1, Act.intSet .width width :: Act.intSet .height height :: r.2.2)

/-- Embedding of `allied_set_binning_factor`: refuse with busy while streaming
or acquiring, then write `BinningVertical` and `BinningHorizontal` and
reconcile the frame buffer. -/
def allied_set_binning_factor (env : Env) (init : Bool) (h : CameraHandle)
    (factor : Nat) : VmbError × CameraHandle × List Act :=
  if init = false then (.notInitialized, h, [])
  else if h.streaming ∨ h.acquiring then (.busy, h, [])
  else if env.intSetErr .binningVertical ≠ .success then
    (env.intSetErr .binningVertical, h, [Act.intSet .binningVertical factor])
  else if env.intSetErr .binningHorizontal ≠ .success then
    (env.intSetErr .binningHorizontal, h,
     [Act.intSet .binningVertical factor, Act.intSet .binningHorizontal factor])
  else
    let r := allied_realloc_framebuffer env init h
    (r.1, r.2.1,
     Act.intSet .binningVertical factor
       :: Act.intSet .binningHorizontal factor :: r.2.2)

/-- Embedding of `allied_set_image_format`: writes the `PixelFormat` feature
and reconciles the frame buffer.  The C function performs no busy check on the
`streaming` and `acquiring` flags. -/
def allied_set_image_format (env : Env) (init : Bool) (h : CameraHandle)
    (format : Nat) : VmbError × CameraHandle × List Act :=
  if init = false then (.notInitialized, h, [])
  else if env.enumSetErr .pixelFormat ≠ .success then
    (env.enumSetErr .pixelFormat, h, [Act.enumSet .pixelFormat format])
  else
    let r := allied_realloc_framebuffer env init h
    (r.1, r.2.1, Act.enumSet .pixelFormat format :: r.2.2)

/-- Embedding of `allied_get_binning_factor`: the out parameter starts at 0;
read `BinningHorizontal` and `BinningVertical`, propagating read errors;
report an internal fault when the two factors diverge, and the common factor
otherwise. -/
def allied_get_binning_factor (env : Env) (init : Bool) : VmbError × Int :=
  if init = false then (.notInitialized, 0)
  else if env.intGetErr .binningHorizontal ≠ .success then
    (env.intGetErr .binningHorizontal, 0)
  else if env.intGetErr .binningVertical ≠ .success then
    (env.intGetErr .binningVertical, 0)
  else
    let hx := env.intGetVal .binningHorizontal
    let hy := env.intGetVal .binningVertical
    if hx ≠ hy then (.internalFault, 0)
    else (.success, hx)

/-- Embedding of `allied_close_camera`.  The second component models the
caller's handle pointer after the call: `some h` when it still refers to a
live handle with state `h`, `none` when the handle was freed and the pointer
nulled.  Stop runs first with its error propagated; then the frame buffer set
contents are freed; then the transport device reference is closed with its
error propagated; only then is the handle freed and the pointer nulled. -/
def allied_close_camera (env : Env) (init : Bool) (h : CameraHandle) :
    VmbError × Option CameraHandle × List Act :=
  if init = false then (.notInitialized, some h, [])
  else
    let s := allied_stop_capture env init h
    if s.1 ≠ .success then (s.1, some s.2.1, s.2.2)
    else
      let step :=
        match s.2.1.framebuf with
        | some fb =>
          let rF := allied_free_framebuf fb false
          (({ s.2.1 with framebuf := some rF.1 } : CameraHandle), rF.2)
        | none => (s.2.1, ([] : List Act))
      if env.cameraCloseErr ≠ .success then
        (env.cameraCloseErr, some step.1, s.2.2 ++ step.2 ++ [Act.cameraClose])
      else (.success, none, s.2.2 ++ step.2 ++ [Act.cameraClose])

/-- Embedding of `VmbAdjustPktSz`: queries the camera info, propagating that
query's error out of the function (`ALLIEDEXIT`); on query success it runs the
packet-size adjustment command and polls it to completion, tolerating failure
of the command itself, and returns success.  The function therefore fails
exactly when `VmbCameraInfoQuery` fails.  The command run and its polling do
not affect the library state and are not traced. -/
def VmbAdjustPktSz (env : Env) : VmbError :=
  if env.infoQueryErr ≠ .success then env.infoQueryErr else .success

/-- Frame buffer structure as `memset` to zero right after its `malloc` in
open. -/
def emptyFrameBuffer : AlliedFrameBuffer :=
  { alloc_size := 0, alignment := 0, num_frames := 0,
    buffer := none, frames := none, announced := false }

/-- Outcome of `allied_open_camera_generic`.  `outHolds` is the value the
caller's handle pointer holds after the call when the function wrote it
(`none` when the pointer was never written); `handleFreed` records whether
`free` ran on the handle structure; `state` is the live handle state on
success. -/
structure OpenOutcome where
  err : VmbError
  outHolds : Option Nat
  handleFreed : Bool
  state : Option CameraHandle
  trace : List Act
deriving DecidableEq, Repr

/-- Embedding of `allied_open_camera_generic`.  When `id` is `NULL`
(`idNull`), the first camera is looked up and its id duplicated.  The handle
and frame buffer structures are allocated, the camera opened, and the
packet-size tuning step run — a failure of `VmbAdjustPktSz` (its camera-info
query failing) goes to `cleanup_close` before the caller's handle pointer is
written.  Only after the pointer is written are the initial frame buffer
allocated and reconciled; the cleanup paths close the camera and free the
structures but never write the caller's pointer again.
On the `goto cleanup` paths taken before `err` is assigned (the structure
`malloc` failures with a non-null `id`), the C code returns the indeterminate
value of `err`, modelled by `env.uninitErr`. -/
def allied_open_camera_generic (env : Env) (init : Bool) (idNull : Bool)
    (bufsize : Nat) : OpenOutcome :=
  if init = false then ⟨.notInitialized, none, false, none, []⟩
  else if idNull ∧ env.listErr ≠ .success then ⟨env.listErr, none, false, none, []⟩
  else if idNull ∧ env.strdupOk = false then ⟨.resources, none, false, none, []⟩
  else
    let errAtCleanup := if idNull then VmbError.success else env.uninitErr
    if env.handleMallocOk = false then ⟨errAtCleanup, none, false, none, []⟩
    else if env.framebufMallocOk = false then ⟨errAtCleanup, none, true, none, []⟩
    else if env.cameraOpenErr ≠ .success then
      ⟨env.cameraOpenErr, none, true, none, [Act.cameraOpen]⟩
    else if VmbAdjustPktSz env ≠ .success then
      ⟨VmbAdjustPktSz env, none, true, none, [Act.cameraOpen, Act.cameraClose]⟩
    else
      let rA := allied_alloc_framebuf env init emptyFrameBuffer bufsize
      if rA.1 ≠ .success then
        ⟨rA.1, some env.selfPtr, true, none,
         Act.cameraOpen :: rA.2.2 ++ [Act.cameraClose]⟩
      else
        let h1 : CameraHandle :=
          { acquiring := false, streaming := false, framebuf := some rA.2.1 }
        let rR := allied_realloc_framebuffer env init h1
        if rR.1 ≠ .success then
          ⟨rR.1, some env.selfPtr, true, none,
           Act.cameraOpen :: rA.2.2 ++ rR.2.2 ++ [Act.cameraClose]⟩
        else
          ⟨.success, some env.selfPtr, false, some rR.2.1,
           Act.cameraOpen :: rA.2.2 ++ rR.2.2⟩

/-- Result of one invocation of the completion relay: the three context slot
values it read, the frame value it passed to the user callback, and the frame
value it re-submitted to the transport's receive queue. -/
structure RelayResult where
  readHandle : Nat
  readData : Nat
  readCb : Nat
  invoked : VmbFrame
  requeued : VmbFrame
deriving DecidableEq, Repr

/-- Embedding of `FrameCaptureCallback`, the completion relay.  `userEffect`
is the effect of the user callback stored in the frame's callback context
slot: it receives the completed frame and may mutate any of its fields,
context slots included.  The relay reads the three context slots, invokes the
callback on the frame, writes the three slots back to the values read before
the invocation, and re-queues the resulting descriptor. -/
def FrameCaptureCallback (userEffect : VmbFrame → VmbFrame) (frame : VmbFrame) :
    RelayResult :=
  let ihandle := frame.ctxHandle
  let user_data := frame.ctxData
  let callback_handle := frame.ctxCb
  let after := userEffect frame
  let restored := { after with
    ctxHandle := ihandle, ctxData := user_data, ctxCb := callback_handle }
  { readHandle := ihandle, readData := user_data, readCb := callback_handle,
    invoked := frame, requeued := restored }

/-- Actions that allocate or free the frame buffer memory block. -/
def Act.isBufAlloc : Act → Bool
  | .allocBuf _ _ => true
  | .freeBuf => true
  | _ => false

/-- Actions that touch heap storage of the frame buffer set: the buffer
memory block or the frame descriptor array. -/
def Act.isBufferOp : Act → Bool
  | .allocBuf _ _ => true
  | .freeBuf => true
  | .freeFrames => true
  | .allocFrames _ => true
  | _ => false

/-- Capture-state invariant of the device handle: acquiring implies
streaming. -/
def capInv (h : CameraHandle) : Prop := h.acquiring = true → h.streaming = true

theorem stopFlushPhase_fst (env : Env) (h : CameraHandle) (t : List Act) :
    (stopFlushPhase env h t).1 = .success := rfl

theorem stopFlushPhase_state (env : Env) (h : CameraHandle) (t : List Act) :
    (stopFlushPhase env h t).2.1 =
      { h with framebuf := h.framebuf.map (fun fb => { fb with announced := false }) } := rfl

theorem ssp_acquiring (env : Env) (h : CameraHandle) (t : List Act) :
    (stopStreamPhase env h t).2.1.acquiring = h.acquiring := by
  by_cases hstr : h.streaming = true <;>
    by_cases he : env.captureEndErr = .success <;>
      simp_all [stopStreamPhase, stopFlushPhase]

theorem ssp_success_streaming (env : Env) (h : CameraHandle) (t : List Act)
    (hs : (stopStreamPhase env h t).1 = .success) :
    (stopStreamPhase env h t).2.1.streaming = false := by
  by_cases hstr : h.streaming = true <;>
    by_cases he : env.captureEndErr = .success <;>
      simp_all [stopStreamPhase, stopFlushPhase]

theorem ssp_err_state (env : Env) (h : CameraHandle) (t : List Act)
    (hs : (stopStreamPhase env h t).1 ≠ .success) :
    (stopStreamPhase env h t).2.1 = h := by
  by_cases hstr : h.streaming = true <;>
    by_cases he : env.captureEndErr = .success <;>
      simp_all [stopStreamPhase, stopFlushPhase]

theorem ssp_success_framebuf (env : Env) (h : CameraHandle) (t : List Act)
    (hs : (stopStreamPhase env h t).1 = .success) :
    (stopStreamPhase env h t).2.1.framebuf =
      h.framebuf.map (fun fb => { fb with announced := false }) := by
  by_cases hstr : h.streaming = true <;>
    by_cases he : env.captureEndErr = .success <;>
      simp_all [stopStreamPhase, stopFlushPhase]

theorem ssp_framebuf_isSome (env : Env) (h : CameraHandle) (t : List Act)
    (hsome : h.framebuf.isSome = true) :
    (stopStreamPhase env h t).2.1.framebuf.isSome = true := by
  by_cases hstr : h.streaming = true <;>
    by_cases he : env.captureEndErr = .success <;>
      simp_all [stopStreamPhase, stopFlushPhase]

theorem sfp_acts (env : Env) (h : CameraHandle) (t : List Act) :
    ∀ a ∈ (stopFlushPhase env h t).2.2,
      a ∈ t ∨ a = Act.queueFlush ∨ a = Act.revokeAll := by
  intro a ha
  simp only [stopFlushPhase, revokeCalls, List.mem_append, List.mem_singleton] at ha
  rcases ha with (ha | ha) | ha
  · exact Or.inl ha
  · exact Or.inr (Or.inl ha)
  · split at ha
    · exact Or.inr (Or.inr (List.eq_of_mem_replicate ha))
    · exact absurd ha (List.not_mem_nil a)

theorem ssp_acts (env : Env) (h : CameraHandle) (t : List Act) :
    ∀ a ∈ (stopStreamPhase env h t).2.2,
      a ∈ t ∨ a = Act.captureEnd ∨ a = Act.queueFlush ∨ a = Act.revokeAll := by
  intro a ha
  unfold stopStreamPhase at ha
  split at ha
  · split at ha
    · rcases List.mem_append.mp ha with ha | ha
      · exact Or.inl ha
      · exact Or.inr (Or.inl (List.mem_singleton.mp ha))
    · rcases sfp_acts env _ _ a ha with ha | ha | ha
      · rcases List.mem_append.mp ha with ha | ha
        · exact Or.inl ha
        · exact Or.inr (Or.inl (List.mem_singleton.mp ha))
      · exact Or.inr (Or.inr (Or.inl ha))
      · exact Or.inr (Or.inr (Or.inr ha))
  · rcases sfp_acts env _ _ a ha with ha | ha | ha
    · exact Or.inl ha
    · exact Or.inr (Or.inr (Or.inl ha))
    · exact Or.inr (Or.inr (Or.inr ha))

theorem stop_idle (env : Env) (h : CameraHandle)
    (ha : h.acquiring = false) (hs : h.streaming = false) :
    allied_stop_capture env true h = (.success, h, []) := by
  simp [allied_stop_capture, ha, hs]

theorem stop_acqfail (env : Env) (h : CameraHandle)
    (ha : h.acquiring = true) (hc : env.commandErr .acquisitionStop ≠ .success) :
    allied_stop_capture env true h =
      (env.commandErr .acquisitionStop, h, [Act.commandRun .acquisitionStop]) := by
  simp [allied_stop_capture, ha, hc]

theorem stop_success_flags (env : Env) (init : Bool) (h : CameraHandle)
    (hs : (allied_stop_capture env init h).1 = .success) :
    (allied_stop_capture env init h).2.1.acquiring = false ∧
    (allied_stop_capture env init h).2.1.streaming = false := by
  unfold allied_stop_capture at hs ⊢
  by_cases hi : init = false
  · rw [if_pos hi] at hs; exact absurd hs (by simp)
  · rw [if_neg hi] at hs ⊢
    by_cases hid : (!h.acquiring && !h.streaming) = true
    · rw [if_pos hid] at hs ⊢
      simp only [Bool.and_eq_true, Bool.not_eq_true'] at hid
      exact hid
    · rw [if_neg hid] at hs ⊢
      by_cases ha : h.acquiring = true
      · rw [if_pos ha] at hs ⊢
        by_cases hc : env.commandErr .acquisitionStop ≠ .success
        · rw [if_pos hc] at hs; exact absurd hs hc
        · rw [if_neg hc] at hs ⊢
          exact ⟨by rw [ssp_acquiring], ssp_success_streaming env _ _ hs⟩
      · rw [if_neg ha] at hs ⊢
        refine ⟨?_, ssp_success_streaming env _ _ hs⟩
        rw [ssp_acquiring]
        simpa using ha

theorem stop_capInv (env : Env) (init : Bool) (h : CameraHandle)
    (hinv : capInv h) : capInv (allied_stop_capture env init h).2.1 := by
  unfold allied_stop_capture
  by_cases hi : init = false
  · rw [if_pos hi]; exact hinv
  · rw [if_neg hi]
    by_cases hid : (!h.acquiring && !h.streaming) = true
    · rw [if_pos hid]; exact hinv
    · rw [if_neg hid]
      by_cases ha : h.acquiring = true
      · rw [if_pos ha]
        by_cases hc : env.commandErr .acquisitionStop ≠ .success
        · rw [if_pos hc]; exact hinv
        · rw [if_neg hc]
          intro hacq
          rw [ssp_acquiring] at hacq
          exact absurd hacq (by simp)
      · rw [if_neg ha]
        intro hacq
        rw [ssp_acquiring] at hacq
        exact absurd hacq ha

theorem stop_framebuf_isSome (env : Env) (init : Bool) (h : CameraHandle)
    (hsome : h.framebuf.isSome = true) :
    (allied_stop_capture env init h).2.1.framebuf.isSome = true := by
  unfold allied_stop_capture
  by_cases hi : init = false
  · rw [if_pos hi]; exact hsome
  · rw [if_neg hi]
    by_cases hid : (!h.acquiring && !h.streaming) = true
    · rw [if_pos hid]; exact hsome
    · rw [if_neg hid]
      by_cases ha : h.acquiring = true
      · rw [if_pos ha]
        by_cases hc : env.commandErr .acquisitionStop ≠ .success
        · rw [if_pos hc]; exact hsome
        · rw [if_neg hc]; exact ssp_framebuf_isSome env _ _ hsome
      · rw [if_neg ha]; exact ssp_framebuf_isSome env _ _ hsome

theorem stop_success_announced (env : Env) (init : Bool) (h : CameraHandle)
    (hrun : h.streaming = true ∨ h.acquiring = true)
    (hs : (allied_stop_capture env init h).1 = .success) :
    ∀ fb', (allied_stop_capture env init h).2.1.framebuf = some fb' →
      fb'.announced = false := by
  intro fb' hfb'
  unfold allied_stop_capture at hs hfb'
  by_cases hi : init = false
  · rw [if_pos hi] at hs; exact absurd hs (by simp)
  · rw [if_neg hi] at hs hfb'
    by_cases hid : (!h.acquiring && !h.streaming) = true
    · exfalso
      simp only [Bool.and_eq_true, Bool.not_eq_true'] at hid
      rcases hrun with hr | hr
      · rw [hid.2] at hr; exact Bool.false_ne_true hr
      · rw [hid.1] at hr; exact Bool.false_ne_true hr
    · rw [if_neg hid] at hs hfb'
      by_cases ha : h.acquiring = true
      · rw [if_pos ha] at hs hfb'
        by_cases hc : env.commandErr .acquisitionStop ≠ .success
        · rw [if_pos hc] at hs; exact absurd hs hc
        · rw [if_neg hc] at hs hfb'
          rw [ssp_success_framebuf env _ _ hs] at hfb'
          rcases Option.map_eq_some'.mp hfb' with ⟨fb0, _, heq⟩
          rw [← heq]
      · rw [if_neg ha] at hs hfb'
        rw [ssp_success_framebuf env _ _ hs] at hfb'
        rcases Option.map_eq_some'.mp hfb' with ⟨fb0, _, heq⟩
        rw [← heq]

theorem stop_acts (env : Env) (init : Bool) (h : CameraHandle) :
    ∀ a ∈ (allied_stop_capture env init h).2.2,
      a = Act.commandRun .acquisitionStop ∨ a = Act.captureEnd ∨
      a = Act.queueFlush ∨ a = Act.revokeAll := by
  intro a ha'
  unfold allied_stop_capture at ha'
  by_cases hi : init = false
  · rw [if_pos hi] at ha'; exact absurd ha' (List.not_mem_nil a)
  · rw [if_neg hi] at ha'
    by_cases hid : (!h.acquiring && !h.streaming) = true
    · rw [if_pos hid] at ha'; exact absurd ha' (List.not_mem_nil a)
    · rw [if_neg hid] at ha'
      by_cases ha : h.acquiring = true
      · rw [if_pos ha] at ha'
        by_cases hc : env.commandErr .acquisitionStop ≠ .success
        · rw [if_pos hc] at ha'
          exact Or.inl (List.mem_singleton.mp ha')
        · rw [if_neg hc] at ha'
          rcases ssp_acts env _ _ a ha' with hm | hm | hm | hm
          · exact Or.inl (List.mem_singleton.mp hm)
          · exact Or.inr (Or.inl hm)
          · exact Or.inr (Or.inr (Or.inl hm))
          · exact Or.inr (Or.inr (Or.inr hm))
      · rw [if_neg ha] at ha'
        rcases ssp_acts env _ _ a ha' with hm | hm | hm | hm
        · exact absurd hm (List.not_mem_nil a)
        · exact Or.inr (Or.inl hm)
        · exact Or.inr (Or.inr (Or.inl hm))
        · exact Or.inr (Or.inr (Or.inr hm))

theorem announceFrames_acts (env : Env) :
    ∀ k fb i, ∀ a ∈ (announceFrames env fb i k).2.2, ∃ j, a = Act.frameAnnounce j := by
  intro k
  induction k with
  | zero => intro fb i a ha; exact absurd ha (List.not_mem_nil a)
  | succ k ih =>
    intro fb i a ha
    unfold announceFrames at ha
    split at ha
    · exact ⟨i, List.mem_singleton.mp ha⟩
    · rcases hrec : announceFrames env { fb with announced := true } (i + 1) k
        with ⟨e, fb', t⟩
      rw [hrec] at ha
      dsimp only at ha
      rcases List.mem_cons.mp ha with ha | ha
      · exact ⟨i, ha⟩
      · exact ih _ _ a (by rw [hrec]; exact ha)

theorem announceFrames_ok (env : Env) (hok : ∀ j, env.announceErr j = .success) :
    ∀ k fb i, (announceFrames env fb i k).1 = .success ∧
      (announceFrames env fb i k).2.1 =
        (if k = 0 then fb else { fb with announced := true }) := by
  intro k
  induction k with
  | zero => intro fb i; exact ⟨rfl, rfl⟩
  | succ k ih =>
    intro fb i
    unfold announceFrames
    rw [if_neg (by simp [hok i])]
    rcases hrec : announceFrames env { fb with announced := true } (i + 1) k
      with ⟨e, fb', t⟩
    dsimp only
    have h2 := ih { fb with announced := true } (i + 1)
    rw [hrec] at h2
    dsimp only at h2
    have hfb' : fb' = { fb with announced := true } := by
      rw [h2.2]; split <;> rfl
    rw [if_neg (Nat.succ_ne_zero k)]
    exact ⟨h2.1, hfb'⟩

theorem queueFrames_acts (env : Env) :
    ∀ k i, ∀ a ∈ (queueFrames env i k).2, ∃ j, a = Act.frameQueue j := by
  intro k
  induction k with
  | zero => intro i a ha; exact absurd ha (List.not_mem_nil a)
  | succ k ih =>
    intro i a ha
    unfold queueFrames at ha
    split at ha
    · exact ⟨i, List.mem_singleton.mp ha⟩
    · rcases hrec : queueFrames env (i + 1) k with ⟨e, t⟩
      rw [hrec] at ha
      dsimp only at ha
      rcases List.mem_cons.mp ha with ha | ha
      · exact ⟨i, ha⟩
      · exact ih _ a (by rw [hrec]; exact ha)

theorem queueFrames_ok (env : Env) (hok : ∀ j, env.queueErr j = .success) :
    ∀ k i, (queueFrames env i k).1 = .success := by
  intro k
  induction k with
  | zero => intro i; rfl
  | succ k ih =>
    intro i
    unfold queueFrames
    rw [if_neg (by simp [hok i])]
    rcases hrec : queueFrames env (i + 1) k with ⟨e, t⟩
    dsimp only
    have := ih (i + 1)
    rw [hrec] at this
    exact this

theorem stop_no_bufferop (env : Env) (init : Bool) (h : CameraHandle) :
    ∀ a ∈ (allied_stop_capture env init h).2.2, a.isBufferOp = false := by
  intro a ha
  rcases stop_acts env init h a ha with hm | hm | hm | hm <;> subst hm <;> rfl

theorem start_no_bufferop (env : Env) (init : Bool) (h : CameraHandle)
    (cbPtr udPtr : Nat) :
    ∀ a ∈ (allied_start_capture env init h cbPtr udPtr).2.2,
      a.isBufferOp = false := by
  intro a ha
  unfold allied_start_capture at ha
  by_cases hi : init = false
  · rw [if_pos hi] at ha; exact absurd ha (List.not_mem_nil a)
  · rw [if_neg hi] at ha
    rcases hfb : h.framebuf with _ | fb
    · rw [hfb] at ha; exact absurd ha (List.not_mem_nil a)
    · rw [hfb] at ha
      dsimp only at ha
      rcases hrec : announceFrames env fb 0 fb.num_frames with ⟨e1, fb1, t1⟩
      rw [hrec] at ha
      dsimp only at ha
      by_cases he1 : e1 ≠ .success
      · rw [if_pos he1] at ha
        rcases List.mem_append.mp ha with hm | hm
        · rcases announceFrames_acts env fb.num_frames fb 0 a
            (by rw [hrec]; exact hm) with ⟨j, rfl⟩
          rfl
        · exact stop_no_bufferop env init _ a hm
      · rw [if_neg he1] at ha
        by_cases hcs : env.captureStartErr ≠ .success
        · rw [if_pos hcs] at ha
          rcases List.mem_append.mp ha with hm | hm
          · rcases List.mem_append.mp hm with hm | hm
            · rcases announceFrames_acts env fb.num_frames fb 0 a
                (by rw [hrec]; exact hm) with ⟨j, rfl⟩
              rfl
            · rw [List.mem_singleton.mp hm]; rfl
          · exact stop_no_bufferop env init _ a hm
        · rw [if_neg hcs] at ha
          rcases hq : queueFrames env 0 fb1.num_frames with ⟨e3, t3⟩
          rw [hq] at ha
          dsimp only at ha
          by_cases he3 : e3 ≠ .success
          · rw [if_pos he3] at ha
            rcases List.mem_append.mp ha with hm | hm
            · rcases List.mem_append.mp hm with hm | hm
              · rcases List.mem_append.mp hm with hm | hm
                · rcases announceFrames_acts env fb.num_frames fb 0 a
                    (by rw [hrec]; exact hm) with ⟨j, rfl⟩
                  rfl
                · rw [List.mem_singleton.mp hm]; rfl
              · rcases queueFrames_acts env fb1.num_frames 0 a
                  (by rw [hq]; exact hm) with ⟨j, rfl⟩
                rfl
            · exact stop_no_bufferop env init _ a hm
          · rw [if_neg he3] at ha
            by_cases hcmd : env.commandErr .acquisitionStart ≠ .success
            · rw [if_pos hcmd] at ha
              rcases List.mem_append.mp ha with hm | hm
              · rcases List.mem_append.mp hm with hm | hm
                · rcases List.mem_append.mp hm with hm | hm
                  · rcases List.mem_append.mp hm with hm | hm
                    · rcases announceFrames_acts env fb.num_frames fb 0 a
                        (by rw [hrec]; exact hm) with ⟨j, rfl⟩
                      rfl
                    · rw [List.mem_singleton.mp hm]; rfl
                  · rcases queueFrames_acts env fb1.num_frames 0 a
                      (by rw [hq]; exact hm) with ⟨j, rfl⟩
                    rfl
                · rw [List.mem_singleton.mp hm]; rfl
              · exact stop_no_bufferop env init _ a hm
            · rw [if_neg hcmd] at ha
              rcases List.mem_append.mp ha with hm | hm
              · rcases List.mem_append.mp hm with hm | hm
                · rcases List.mem_append.mp hm with hm | hm
                  · rcases announceFrames_acts env fb.num_frames fb 0 a
                      (by rw [hrec]; exact hm) with ⟨j, rfl⟩
                    rfl
                  · rw [List.mem_singleton.mp hm]; rfl
                · rcases queueFrames_acts env fb1.num_frames 0 a
                    (by rw [hq]; exact hm) with ⟨j, rfl⟩
                  rfl
              · rw [List.mem_singleton.mp hm]; rfl

theorem start_capInv (env : Env) (init : Bool) (h : CameraHandle)
    (cbPtr udPtr : Nat) (hinv : capInv h) :
    capInv (allied_start_capture env init h cbPtr udPtr).2.1 := by
  unfold allied_start_capture
  by_cases hi : init = false
  · rw [if_pos hi]; exact hinv
  · rw [if_neg hi]
    rcases hfb : h.framebuf with _ | fb
    · exact hinv
    · dsimp only
      rcases hrec : announceFrames env fb 0 fb.num_frames with ⟨e1, fb1, t1⟩
      dsimp only
      by_cases he1 : e1 ≠ .success
      · rw [if_pos he1]
        exact stop_capInv env init _ (fun x => hinv x)
      · rw [if_neg he1]
        by_cases hcs : env.captureStartErr ≠ .success
        · rw [if_pos hcs]
          exact stop_capInv env init _ (fun x => hinv x)
        · rw [if_neg hcs]
          rcases hq : queueFrames env 0 fb1.num_frames with ⟨e3, t3⟩
          dsimp only
          by_cases he3 : e3 ≠ .success
          · rw [if_pos he3]
            exact stop_capInv env init _ (fun _ => rfl)
          · rw [if_neg he3]
            by_cases hcmd : env.commandErr .acquisitionStart ≠ .success
            · rw [if_pos hcmd]
              exact stop_capInv env init _ (fun _ => rfl)
            · rw [if_neg hcmd]
              exact fun _ => rfl

theorem start_ok (env : Env) (h : CameraHandle) (cbPtr udPtr : Nat)
    (fb : AlliedFrameBuffer) (hfb : h.framebuf = some fb)
    (hann : ∀ i, env.announceErr i = .success)
    (hcs : env.captureStartErr = .success)
    (hq : ∀ i, env.queueErr i = .success)
    (hcmd : env.commandErr .acquisitionStart = .success) :
    (allied_start_capture env true h cbPtr udPtr).1 = .success ∧
    (allied_start_capture env true h cbPtr udPtr).2.1.acquiring = true ∧
    (allied_start_capture env true h cbPtr udPtr).2.1.streaming = true ∧
    (allied_start_capture env true h cbPtr udPtr).2.1.framebuf.isSome = true := by
  unfold allied_start_capture
  rw [if_neg (by simp)]
  rw [hfb]
  dsimp only
  rw [if_neg (by simp [(announceFrames_ok env hann fb.num_frames fb 0).1])]
  rw [if_neg (by simp [hcs])]
  rw [if_neg (by simp [queueFrames_ok env hq])]
  rw [if_neg (by simp [hcmd])]
  exact ⟨rfl, rfl, rfl, rfl⟩

theorem ssp_fst_ok (env : Env) (h : CameraHandle) (t : List Act)
    (hend : env.captureEndErr = .success) :
    (stopStreamPhase env h t).1 = .success := by
  by_cases hstr : h.streaming = true <;> simp_all [stopStreamPhase, stopFlushPhase]

theorem stop_ok (env : Env) (h : CameraHandle)
    (hstop : env.commandErr .acquisitionStop = .success)
    (hend : env.captureEndErr = .success) :
    (allied_stop_capture env true h).1 = .success := by
  unfold allied_stop_capture
  rw [if_neg (by simp)]
  by_cases hid : (!h.acquiring && !h.streaming) = true
  · rw [if_pos hid]
  · rw [if_neg hid]
    by_cases ha : h.acquiring = true
    · rw [if_pos ha]
      rw [if_neg (by simp [hstop])]
      exact ssp_fst_ok env _ _ hend
    · rw [if_neg ha]
      exact ssp_fst_ok env _ _ hend

theorem stop_idle_state (env : Env) (init : Bool) (h : CameraHandle)
    (ha : h.acquiring = false) (hs : h.streaming = false) :
    (allied_stop_capture env init h).2.1 = h := by
  by_cases hi : init = false
  · simp [allied_stop_capture, hi]
  · simp [allied_stop_capture, hi, ha, hs]

theorem free_framebuf_frame_only_state (fb : AlliedFrameBuffer) :
    (allied_free_framebuf fb true).1 = { fb with frames := none } := by
  rcases fb with ⟨as, al, nf, bu, fr, an⟩
  rcases fr with _ | fs <;> simp [allied_free_framebuf]

theorem free_framebuf_frame_only_acts (fb : AlliedFrameBuffer) :
    ∀ a ∈ (allied_free_framebuf fb true).2, a = Act.freeFrames := by
  intro a ha
  rcases fb with ⟨as, al, nf, bu, fr, an⟩
  rcases fr with _ | fs <;> simp [allied_free_framebuf] at ha
  exact ha

theorem realloc_state_shape (env : Env) (init : Bool) (h : CameraHandle) :
    (allied_realloc_framebuffer env init h).2.1 = h ∨
    (allied_realloc_framebuffer env init h).2.1 = (allied_stop_capture env init h).2.1 ∨
    ∃ x, (allied_realloc_framebuffer env init h).2.1 =
      { (allied_stop_capture env init h).2.1 with framebuf := some x } := by
  unfold allied_realloc_framebuffer
  by_cases hai : env.alignInfoErr ≠ .success
  · rw [if_pos hai]; exact Or.inl rfl
  · rw [if_neg hai]
    by_cases hpe : env.payloadErr ≠ .success
    · rw [if_pos hpe]; exact Or.inl rfl
    · rw [if_neg hpe]
      dsimp only
      by_cases hse : (allied_stop_capture env init h).1 ≠ .success
      · rw [if_pos hse]; exact Or.inr (Or.inl rfl)
      · rw [if_neg hse]
        rcases hfb1 : (allied_stop_capture env init h).2.1.framebuf with _ | fb
        · exact Or.inr (Or.inl rfl)
        · dsimp only
          repeat' split
          all_goals exact Or.inr (Or.inr ⟨_, rfl⟩)

theorem realloc_flags (env : Env) (init : Bool) (h : CameraHandle)
    (ha : h.acquiring = false) (hs : h.streaming = false) :
    (allied_realloc_framebuffer env init h).2.1.acquiring = false ∧
    (allied_realloc_framebuffer env init h).2.1.streaming = false := by
  have hst := stop_idle_state env init h ha hs
  rcases realloc_state_shape env init h with hq | hq | ⟨x, hq⟩
  · rw [hq]; exact ⟨ha, hs⟩
  · rw [hq, hst]; exact ⟨ha, hs⟩
  · rw [hq, hst]; exact ⟨ha, hs⟩

theorem realloc_capInv (env : Env) (init : Bool) (h : CameraHandle)
    (hinv : capInv h) : capInv (allied_realloc_framebuffer env init h).2.1 := by
  have hstop := stop_capInv env init h hinv
  rcases realloc_state_shape env init h with hq | hq | ⟨x, hq⟩
  · rw [hq]; exact hinv
  · rw [hq]; exact hstop
  · rw [hq]; exact fun hx => hstop hx

theorem close_capInv (env : Env) (init : Bool) (h : CameraHandle)
    (hinv : capInv h) :
    ∀ h', (allied_close_camera env init h).2.1 = some h' → capInv h' := by
  intro h' hh'
  unfold allied_close_camera at hh'
  by_cases hi : init = false
  · rw [if_pos hi] at hh'
    dsimp only at hh'
    cases Option.some.inj hh'
    exact hinv
  · rw [if_neg hi] at hh'
    dsimp only at hh'
    have hstop := stop_capInv env init h hinv
    by_cases hse : (allied_stop_capture env init h).1 ≠ .success
    · rw [if_pos hse] at hh'
      dsimp only at hh'
      cases Option.some.inj hh'
      exact hstop
    · rw [if_neg hse] at hh'
      rcases hfb1 : (allied_stop_capture env init h).2.1.framebuf with _ | fb
      · rw [hfb1] at hh'
        dsimp only at hh'
        by_cases hce : env.cameraCloseErr ≠ .success
        · rw [if_pos hce] at hh'
          cases Option.some.inj hh'
          exact hstop
        · rw [if_neg hce] at hh'
          exact absurd hh' (by simp)
      · rw [hfb1] at hh'
        dsimp only at hh'
        by_cases hce : env.cameraCloseErr ≠ .success
        · rw [if_pos hce] at hh'
          cases Option.some.inj hh'
          exact fun hx => hstop hx
        · rw [if_neg hce] at hh'
          exact absurd hh' (by simp)

theorem open_state_flags (env : Env) (init idNull : Bool) (bufsize : Nat) :
    ∀ h', (allied_open_camera_generic env init idNull bufsize).state = some h' →
      h'.acquiring = false ∧ h'.streaming = false := by
  intro h' hh'
  unfold allied_open_camera_generic at hh'
  by_cases hi : init = false
  · rw [if_pos hi] at hh'; exact absurd hh' (by simp)
  · rw [if_neg hi] at hh'
    by_cases hc1 : idNull = true ∧ env.listErr ≠ .success
    · rw [if_pos hc1] at hh'; exact absurd hh' (by simp)
    · rw [if_neg hc1] at hh'
      by_cases hc2 : idNull = true ∧ env.strdupOk = false
      · rw [if_pos hc2] at hh'; exact absurd hh' (by simp)
      · rw [if_neg hc2] at hh'
        dsimp only at hh'
        by_cases hc3 : env.handleMallocOk = false
        · rw [if_pos hc3] at hh'; exact absurd hh' (by simp)
        · rw [if_neg hc3] at hh'
          by_cases hc4 : env.framebufMallocOk = false
          · rw [if_pos hc4] at hh'; exact absurd hh' (by simp)
          · rw [if_neg hc4] at hh'
            by_cases hc5 : env.cameraOpenErr ≠ .success
            · rw [if_pos hc5] at hh'; exact absurd hh' (by simp)
            · rw [if_neg hc5] at hh'
              by_cases hc5b : VmbAdjustPktSz env ≠ .success
              · rw [if_pos hc5b] at hh'; exact absurd hh' (by simp)
              · rw [if_neg hc5b] at hh'
                by_cases hc6 :
                  (allied_alloc_framebuf env init emptyFrameBuffer bufsize).1 ≠ .success
                · rw [if_pos hc6] at hh'; exact absurd hh' (by simp)
                · rw [if_neg hc6] at hh'
                  by_cases hc7 : (allied_realloc_framebuffer env init
                      { acquiring := false, streaming := false,
                        framebuf := some (allied_alloc_framebuf env init
                          emptyFrameBuffer bufsize).2.1 }).1 ≠ .success
                  · rw [if_pos hc7] at hh'; exact absurd hh' (by simp)
                  · rw [if_neg hc7] at hh'
                    cases Option.some.inj hh'
                    exact realloc_flags env init _ rfl rfl

theorem set_image_size_capInv (env : Env) (init : Bool) (h : CameraHandle)
    (w ht : Nat) (hinv : capInv h) :
    capInv (allied_set_image_size env init h w ht).2.1 := by
  unfold allied_set_image_size
  repeat' split
  all_goals first
    | exact hinv
    | exact realloc_capInv env init h hinv

theorem set_binning_factor_capInv (env : Env) (init : Bool) (h : CameraHandle)
    (factor : Nat) (hinv : capInv h) :
    capInv (allied_set_binning_factor env init h factor).2.1 := by
  unfold allied_set_binning_factor
  repeat' split
  all_goals first
    | exact hinv
    | exact realloc_capInv env init h hinv

theorem set_image_format_capInv (env : Env) (init : Bool) (h : CameraHandle)
    (format : Nat) (hinv : capInv h) :
    capInv (allied_set_image_format env init h format).2.1 := by
  unfold allied_set_image_format
  repeat' split
  all_goals first
    | exact hinv
    | exact realloc_capInv env init h hinv

theorem realloc_skip (env : Env) (h : CameraHandle) (fb : AlliedFrameBuffer)
    (hfb : h.framebuf = some fb)
    (ha : h.acquiring = false) (hstr : h.streaming = false)
    (hai : env.alignInfoErr = .success) (hpe : env.payloadErr = .success)
    (hal : fb.alignment = env.alignment) (hsz : env.payloadSize ≤ fb.alloc_size) :
    (∀ fb', (allied_realloc_framebuffer env true h).2.1.framebuf = some fb' →
       fb'.buffer = fb.buffer ∧ fb'.alloc_size = fb.alloc_size ∧
       fb'.alignment = fb.alignment) ∧
    (∀ a ∈ (allied_realloc_framebuffer env true h).2.2, a.isBufAlloc = false) := by
  unfold allied_realloc_framebuffer
  rw [if_neg (by simp [hai])]
  rw [if_neg (by simp [hpe])]
  dsimp only
  rw [stop_idle env h ha hstr]
  dsimp only
  rw [if_neg (by simp)]
  rw [hfb]
  dsimp only
  rw [if_neg (not_or.mpr ⟨fun hne => hne hal, Nat.not_lt.mpr hsz⟩)]
  dsimp only
  rw [if_neg (by simp)]
  by_cases hreb : framesNeedRebuild fb env.payloadSize = true
  · rw [if_pos hreb]
    rw [free_framebuf_frame_only_state fb]
    by_cases hm : env.framesMallocOk = false
    · rw [if_pos hm]
      dsimp only
      constructor
      · intro fb' hfb'
        cases Option.some.inj hfb'
        exact ⟨rfl, rfl, rfl⟩
      · intro a ha'
        simp only [List.append_nil, List.mem_append, List.mem_cons,
          List.not_mem_nil, or_false] at ha'
        rcases ha' with (rfl | rfl) | ha'
        · rfl
        · rfl
        · rw [free_framebuf_frame_only_acts fb a ha']; rfl
    · rw [if_neg hm]
      dsimp only
      constructor
      · intro fb' hfb'
        cases Option.some.inj hfb'
        exact ⟨rfl, rfl, rfl⟩
      · intro a ha'
        simp only [List.append_nil, List.mem_append, List.mem_cons,
          List.not_mem_nil, or_false] at ha'
        rcases ha' with ((rfl | rfl) | ha') | rfl
        · rfl
        · rfl
        · rw [free_framebuf_frame_only_acts fb a ha']; rfl
        · rfl
  · rw [if_neg hreb]
    dsimp only
    constructor
    · intro fb' hfb'
      cases Option.some.inj hfb'
      exact ⟨rfl, rfl, rfl⟩
    · intro a ha'
      simp only [List.append_nil, List.mem_append, List.mem_cons,
        List.not_mem_nil, or_false] at ha'
      rcases ha' with rfl | rfl
      · rfl
      · rfl

/-- All-success transport oracle used for concrete evaluations: every
transport call succeeds, payload size 100, alignment 1. -/
def envOk : Env :=
  { alignInfoErr := .success
    alignFeatureOk := true
    alignVal := 1
    payloadErr := .success
    payloadSize := 100
    allocOk := true
    freshPtr := 1000
    framesMallocOk := true
    maxFrames := 10
    selfPtr := 77
    announceErr := fun _ => .success
    captureStartErr := .success
    queueErr := fun _ => .success
    commandErr := fun _ => .success
    captureEndErr := .success
    revokeFailures := 0
    cameraOpenErr := .success
    infoQueryErr := .success
    cameraCloseErr := .success
    intSetErr := fun _ => .success
    enumSetErr := fun _ => .success
    intGetErr := fun _ => .success
    intGetVal := fun _ => 2
    listErr := .success
    strdupOk := true
    handleMallocOk := true
    framebufMallocOk := true
    uninitErr := .other 99 }

/-- First frame descriptor of the concrete two-frame buffer set. -/
def frame0 : VmbFrame :=
  { buffer := 1000, bufferSize := 100, ctxHandle := 77, ctxData := 0, ctxCb := 0 }

/-- Second frame descriptor of the concrete two-frame buffer set. -/
def frame1 : VmbFrame :=
  { buffer := 1100, bufferSize := 100, ctxHandle := 77, ctxData := 0, ctxCb := 0 }

/-- Concrete two-frame buffer set matching `envOk` (alignment 1, allocation
200 ≥ payload 100, both frames sized to the payload). -/
def fbOk : AlliedFrameBuffer :=
  { alloc_size := 200, alignment := 1, num_frames := 2,
    buffer := some 1000, frames := some [frame0, frame1], announced := false }

/-- Concrete idle handle owning `fbOk`. -/
def hIdle : CameraHandle :=
  { acquiring := false, streaming := false, framebuf := some fbOk }

/-- Concrete streaming handle owning `fbOk`. -/
def hStreaming : CameraHandle :=
  { acquiring := false, streaming := true, framebuf := some fbOk }

/-- Concrete handle in full capture (streaming and acquiring). -/
def hActive : CameraHandle :=
  { acquiring := true, streaming := true, framebuf := some fbOk }

/-- Oracle in which announcing frame 0 succeeds and announcing frame 1 fails
with a transport error. -/
def envC1 : Env :=
  { envOk with announceErr := fun i => if i = 0 then .success else .other 7 }

/-- Oracle in which the acquisition-stop command fails. -/
def envC4 : Env :=
  { envOk with commandErr := fun c =>
      if c = .acquisitionStop then .other 3 else .success }

/-- Oracle reporting divergent binning factors (horizontal 2, vertical 1). -/
def envC9 : Env :=
  { envOk with intGetVal := fun f => if f = .binningHorizontal then 2 else 1 }

/-- Oracle in which `aligned_alloc` fails. -/
def envC10 : Env := { envOk with allocOk := false }

/-- C1: at the failing input — an idle handle with two frames where the
transport accepts the announce of frame 0 and rejects that of frame 1 — the
code returns the announce error with the flags still idle, but performs no
rollback: `allied_stop_capture` called from `err_cleanup` returns immediately
because neither `streaming` nor `acquiring` is set, so the trace contains no
revoke (nor flush) call and the buffer set is left with `announced = true`.
This contradicts the claimed cleanup/revocation of descriptors 0..i. -/
theorem c1_announce_failure_leaves_descriptors_announced :
    (allied_start_capture envC1 true hIdle 5 6).1 = .other 7 ∧
    (allied_start_capture envC1 true hIdle 5 6).2.1.acquiring = false ∧
    (allied_start_capture envC1 true hIdle 5 6).2.1.streaming = false ∧
    (allied_start_capture envC1 true hIdle 5 6).2.1.framebuf.map
      AlliedFrameBuffer.announced = some true ∧
    (allied_start_capture envC1 true hIdle 5 6).2.2 =
      [Act.frameAnnounce 0, Act.frameAnnounce 1] := by
  decide

/-- C2: at the failing input — a streaming handle — the image-size and
binning-factor setters refuse with busy and no side effects, but the
pixel-format setter performs no busy check: it writes the `PixelFormat`
feature to the transport and runs the buffer reconciliation, which stops the
active capture, contradicting the claimed Busy refusal for every
payload-changing setter. -/
theorem c2_format_setter_ignores_busy :
    allied_set_image_size envOk true hStreaming 10 10 = (.busy, hStreaming, []) ∧
    allied_set_binning_factor envOk true hStreaming 2 = (.busy, hStreaming, []) ∧
    (allied_set_image_format envOk true hStreaming 3).1 ≠ .busy ∧
    (allied_set_image_format envOk true hStreaming 3).2.2.head? =
      some (Act.enumSet .pixelFormat 3) ∧
    (allied_set_image_format envOk true hStreaming 3).2.1.streaming = false := by
  decide

/-- C3: for every completed frame and every mutation the user callback makes
to the frame (context slots included), the completion relay reads the three
context slots, passes exactly the completed frame to the callback, writes the
three slots back to the values read before the invocation, and re-queues the
resulting descriptor. -/
theorem c3_relay_restores_context_and_requeues :
    ∀ (userEffect : VmbFrame → VmbFrame) (frame : VmbFrame),
      (FrameCaptureCallback userEffect frame).readHandle = frame.ctxHandle ∧
      (FrameCaptureCallback userEffect frame).readData = frame.ctxData ∧
      (FrameCaptureCallback userEffect frame).readCb = frame.ctxCb ∧
      (FrameCaptureCallback userEffect frame).invoked = frame ∧
      (FrameCaptureCallback userEffect frame).requeued =
        { buffer := (userEffect frame).buffer,
          bufferSize := (userEffect frame).bufferSize,
          ctxHandle := frame.ctxHandle,
          ctxData := frame.ctxData, ctxCb := frame.ctxCb } ∧
      (FrameCaptureCallback userEffect frame).requeued.ctxHandle = frame.ctxHandle ∧
      (FrameCaptureCallback userEffect frame).requeued.ctxData = frame.ctxData ∧
      (FrameCaptureCallback userEffect frame).requeued.ctxCb = frame.ctxCb := by
  intro u f
  exact ⟨rfl, rfl, rfl, rfl, rfl, rfl, rfl, rfl⟩

/-- C4 counterexample: from the state with `announced = true` but neither
`streaming` nor `acquiring` (reachable through the announce-failure path of
start), stop returns success immediately and leaves `announced = true`,
refuting the claim that success from any state ends with `announced =
false`. -/
theorem c4_counterexample_success_leaves_announced :
    (allied_stop_capture envOk true
      { acquiring := false, streaming := false,
        framebuf := some { fbOk with announced := true } }).1 = .success ∧
    (allied_stop_capture envOk true
      { acquiring := false, streaming := false,
        framebuf := some { fbOk with announced := true } }).2.1.framebuf.map
      AlliedFrameBuffer.announced = some true := by
  decide

/-- C4 (amended): if acquiring and the acquisition-stop command fails, the
error is propagated and the handle is left unchanged; when stop returns
success from a state with `streaming` or `acquiring` set, the final state has
`acquiring = false`, `streaming = false` and `announced = false`; from a state
with both flags already false, stop returns success immediately leaving the
handle (its `announced` flag included) unchanged. -/
theorem c4_amended_stop_error_and_success_behaviour :
    ∀ (env : Env) (h : CameraHandle),
      (h.acquiring = true → env.commandErr .acquisitionStop ≠ .success →
        allied_stop_capture env true h =
          (env.commandErr .acquisitionStop, h, [Act.commandRun .acquisitionStop])) ∧
      ((h.streaming = true ∨ h.acquiring = true) →
        (allied_stop_capture env true h).1 = .success →
        (allied_stop_capture env true h).2.1.acquiring = false ∧
        (allied_stop_capture env true h).2.1.streaming = false ∧
        ∀ fb', (allied_stop_capture env true h).2.1.framebuf = some fb' →
          fb'.announced = false) ∧
      (h.acquiring = false → h.streaming = false →
        allied_stop_capture env true h = (.success, h, [])) := by
  intro env h
  refine ⟨fun ha hc => stop_acqfail env h ha hc, fun hrun hs => ?_,
    fun ha hs => stop_idle env h ha hs⟩
  obtain ⟨hA, hS⟩ := stop_success_flags env true h hs
  exact ⟨hA, hS, stop_success_announced env true h hrun hs⟩

theorem c4_witness :
    allied_stop_capture envC4 true hActive =
      (envC4.commandErr .acquisitionStop, hActive, [Act.commandRun .acquisitionStop]) :=
  (c4_amended_stop_error_and_success_behaviour envC4 hActive).1 rfl (by decide)

/-- C5: for every handle with both flags clear, stop returns success
immediately with no transport calls at all (in particular none beyond the
flush and revoke, which are skipped entirely) and the handle unchanged; and a
second stop directly after any successful stop returns success with no calls
and no state change. -/
theorem c5_stop_idempotent :
    ∀ (env : Env) (h : CameraHandle),
      (h.streaming = false → h.acquiring = false →
        allied_stop_capture env true h = (.success, h, [])) ∧
      ((allied_stop_capture env true h).1 = .success →
        allied_stop_capture env true ((allied_stop_capture env true h).2.1) =
          (.success, (allied_stop_capture env true h).2.1, [])) := by
  intro env h
  constructor
  · exact fun hs ha => stop_idle env h ha hs
  · intro hs
    obtain ⟨hA, hS⟩ := stop_success_flags env true h hs
    exact stop_idle env _ hA hS

theorem c5_witness :
    allied_stop_capture envOk true hIdle = (.success, hIdle, []) :=
  (c5_stop_idempotent envOk hIdle).1 rfl rfl

/-- C6: the invariant `acquiring ⇒ streaming` is preserved by every public
operation (start, stop, reconciliation, the three payload-affecting setters,
close, and the state produced by open), and whenever stop succeeds both flags
are false — in particular the buffer mutation phase of
`allied_realloc_framebuffer`, which operates on the state returned by a
successful stop, runs with neither flag set. -/
theorem c6_invariant_preserved :
    ∀ (env : Env) (init : Bool) (h : CameraHandle)
      (cbPtr udPtr w ht factor fmt bufsize : Nat) (idNull : Bool),
      capInv h →
      capInv (allied_start_capture env init h cbPtr udPtr).2.1 ∧
      capInv (allied_stop_capture env init h).2.1 ∧
      capInv (allied_realloc_framebuffer env init h).2.1 ∧
      capInv (allied_set_image_size env init h w ht).2.1 ∧
      capInv (allied_set_binning_factor env init h factor).2.1 ∧
      capInv (allied_set_image_format env init h fmt).2.1 ∧
      (∀ h', (allied_close_camera env init h).2.1 = some h' → capInv h') ∧
      (∀ h', (allied_open_camera_generic env init idNull bufsize).state = some h' →
        h'.acquiring = false ∧ h'.streaming = false) ∧
      ((allied_stop_capture env init h).1 = .success →
        (allied_stop_capture env init h).2.1.acquiring = false ∧
        (allied_stop_capture env init h).2.1.streaming = false) := by
  intro env init h cb ud w ht f fmt bs idN hinv
  exact ⟨start_capInv env init h cb ud hinv, stop_capInv env init h hinv,
    realloc_capInv env init h hinv, set_image_size_capInv env init h w ht hinv,
    set_binning_factor_capInv env init h f hinv,
    set_image_format_capInv env init h fmt hinv,
    close_capInv env init h hinv, open_state_flags env init idN bs,
    fun hs => stop_success_flags env init h hs⟩

theorem c6_witness :
    capInv (allied_start_capture envOk true hIdle 5 6).2.1 :=
  (c6_invariant_preserved envOk true hIdle 5 6 8 8 2 3 100 false
    (fun hx => absurd hx Bool.false_ne_true)).1

/-- C7: for every idle handle whose buffer set already matches the required
alignment and whose allocation is at least the payload size, the
reconciliation returns a buffer set with the same buffer pointer, allocation
size and alignment, and performs no buffer allocation or free; and with a
transport accepting all capture calls, a start followed by a stop followed by
a second start (unchanged configuration) all succeed while performing no
buffer-set heap operation at all. -/
theorem c7_reconciliation_skips_matching_buffer :
    ∀ (env : Env) (h : CameraHandle) (fb : AlliedFrameBuffer) (cbPtr udPtr : Nat),
      h.framebuf = some fb →
      h.acquiring = false → h.streaming = false →
      env.alignInfoErr = .success → env.payloadErr = .success →
      fb.alignment = env.alignment → env.payloadSize ≤ fb.alloc_size →
      ((∀ fb', (allied_realloc_framebuffer env true h).2.1.framebuf = some fb' →
          fb'.buffer = fb.buffer ∧ fb'.alloc_size = fb.alloc_size ∧
          fb'.alignment = fb.alignment) ∧
       (∀ a ∈ (allied_realloc_framebuffer env true h).2.2, a.isBufAlloc = false)) ∧
      ((∀ i, env.announceErr i = .success) → env.captureStartErr = .success →
       (∀ i, env.queueErr i = .success) →
       env.commandErr .acquisitionStart = .success →
       env.commandErr .acquisitionStop = .success →
       env.captureEndErr = .success →
        (allied_start_capture env true h cbPtr udPtr).1 = .success ∧
        (allied_stop_capture env true
          (allied_start_capture env true h cbPtr udPtr).2.1).1 = .success ∧
        (allied_start_capture env true
          (allied_stop_capture env true
            (allied_start_capture env true h cbPtr udPtr).2.1).2.1 cbPtr udPtr).1 =
          .success ∧
        (∀ a ∈ (allied_start_capture env true h cbPtr udPtr).2.2,
          a.isBufferOp = false) ∧
        (∀ a ∈ (allied_stop_capture env true
            (allied_start_capture env true h cbPtr udPtr).2.1).2.2,
          a.isBufferOp = false) ∧
        (∀ a ∈ (allied_start_capture env true
            (allied_stop_capture env true
              (allied_start_capture env true h cbPtr udPtr).2.1).2.1 cbPtr udPtr).2.2,
          a.isBufferOp = false)) := by
  intro env h fb cb ud hfb ha hstr hai hpe hal hsz
  refine ⟨realloc_skip env h fb hfb ha hstr hai hpe hal hsz, ?_⟩
  intro hann hcs hq hcmdS hcmdP hend
  obtain ⟨h1fst, h1acq, h1str, h1some⟩ := start_ok env h cb ud fb hfb hann hcs hq hcmdS
  have h2fst := stop_ok env (allied_start_capture env true h cb ud).2.1 hcmdP hend
  have h2some := stop_framebuf_isSome env true
    (allied_start_capture env true h cb ud).2.1 h1some
  obtain ⟨fb2, hfb2⟩ := Option.isSome_iff_exists.mp h2some
  obtain ⟨h3fst, h3a, h3b, h3c⟩ := start_ok env _ cb ud fb2 hfb2 hann hcs hq hcmdS
  exact ⟨h1fst, h2fst, h3fst, start_no_bufferop env true h cb ud,
    stop_no_bufferop env true _, start_no_bufferop env true _ cb ud⟩

theorem c7_witness :
    (∀ a ∈ (allied_realloc_framebuffer envOk true hIdle).2.2,
      Act.isBufAlloc a = false) ∧
    (allied_start_capture envOk true hIdle 1 2).1 = .success :=
  let big := c7_reconciliation_skips_matching_buffer envOk hIdle fbOk 1 2
    rfl rfl rfl rfl rfl (by decide) (by decide)
  ⟨big.1.2, (big.2 (fun _ => rfl) rfl (fun _ => rfl) rfl rfl rfl).1⟩

/-- C8: close runs stop first and, on stop failure, returns that error with
the handle still live and no free-frames, free-buffer or device-close action
performed; on stop success it frees the buffer-set contents, then closes the
transport device reference (propagating its error with the handle pointer
still set), and only when that also succeeds does it free the handle and null
the caller's pointer, with the trace showing the stage order. -/
theorem c8_close_stage_order_and_propagation :
    ∀ (env : Env) (h : CameraHandle),
      ((allied_stop_capture env true h).1 ≠ .success →
        allied_close_camera env true h =
          ((allied_stop_capture env true h).1,
           some (allied_stop_capture env true h).2.1,
           (allied_stop_capture env true h).2.2) ∧
        ∀ a ∈ (allied_close_camera env true h).2.2,
          a ≠ Act.freeFrames ∧ a ≠ Act.freeBuf ∧ a ≠ Act.cameraClose) ∧
      ((allied_stop_capture env true h).1 = .success →
        ∀ fb1, (allied_stop_capture env true h).2.1.framebuf = some fb1 →
          (env.cameraCloseErr ≠ .success →
            allied_close_camera env true h =
              (env.cameraCloseErr,
               some { acquiring := (allied_stop_capture env true h).2.1.acquiring,
                      streaming := (allied_stop_capture env true h).2.1.streaming,
                      framebuf := some (allied_free_framebuf fb1 false).1 },
               (allied_stop_capture env true h).2.2
                 ++ (allied_free_framebuf fb1 false).2 ++ [Act.cameraClose])) ∧
          (env.cameraCloseErr = .success →
            allied_close_camera env true h =
              (.success, none,
               (allied_stop_capture env true h).2.2
                 ++ (allied_free_framebuf fb1 false).2 ++ [Act.cameraClose]))) := by
  intro env h
  constructor
  · intro hse
    have heq : allied_close_camera env true h =
        ((allied_stop_capture env true h).1,
         some (allied_stop_capture env true h).2.1,
         (allied_stop_capture env true h).2.2) := by
      unfold allied_close_camera
      rw [if_neg (by simp)]
      dsimp only
      rw [if_pos hse]
    refine ⟨heq, ?_⟩
    rw [heq]
    intro a ha
    rcases stop_acts env true h a ha with hm | hm | hm | hm <;> subst hm <;>
      exact ⟨by decide, by decide, by decide⟩
  · intro hse fb1 hfb1
    constructor
    · intro hce
      unfold allied_close_camera
      rw [if_neg (by simp)]
      dsimp only
      rw [if_neg (by simp [hse])]
      rw [hfb1]
      dsimp only
      rw [if_pos hce]
    · intro hce
      unfold allied_close_camera
      rw [if_neg (by simp)]
      dsimp only
      rw [if_neg (by simp [hse])]
      rw [hfb1]
      dsimp only
      rw [if_neg (by simp [hce])]

theorem c8_witness :
    allied_close_camera envC4 true hActive =
      ((allied_stop_capture envC4 true hActive).1,
       some (allied_stop_capture envC4 true hActive).2.1,
       (allied_stop_capture envC4 true hActive).2.2) :=
  ((c8_close_stage_order_and_propagation envC4 hActive).1 (by decide)).1

/-- C9: when both binning feature reads succeed, the binning-factor getter
returns an internal fault (with the out value left 0) exactly when the
transport reports divergent horizontal and vertical factors, and success with
the common factor when they agree. -/
theorem c9_binning_factor_divergence_internal_fault :
    ∀ (env : Env),
      env.intGetErr .binningHorizontal = .success →
      env.intGetErr .binningVertical = .success →
      (env.intGetVal .binningHorizontal ≠ env.intGetVal .binningVertical →
        allied_get_binning_factor env true = (.internalFault, 0)) ∧
      (env.intGetVal .binningHorizontal = env.intGetVal .binningVertical →
        allied_get_binning_factor env true =
          (.success, env.intGetVal .binningHorizontal)) := by
  intro env hH hV
  constructor
  · intro hne
    unfold allied_get_binning_factor
    rw [if_neg (by simp)]
    rw [if_neg (by simp [hH])]
    rw [if_neg (by simp [hV])]
    rw [if_pos hne]
  · intro heq
    unfold allied_get_binning_factor
    rw [if_neg (by simp)]
    rw [if_neg (by simp [hH])]
    rw [if_neg (by simp [hV])]
    rw [if_neg (by simp [heq])]

theorem c9_witness :
    allied_get_binning_factor envC9 true = (.internalFault, 0) :=
  (c9_binning_factor_divergence_internal_fault envC9 rfl rfl).1 (by decide)

/-- C10: the open function writes the caller's handle pointer before the
initial buffer allocation; consequently, whenever the camera was opened and
the packet-size tuning step passed (structure mallocs, the transport open and
the tuning step's camera-info query succeed) but the call still fails — the
buffer allocation or the subsequent reconciliation errors — the internal
handle is freed while the caller's pointer still holds its address, which is
never reset to null. -/
theorem c10_open_failure_leaves_dangling_out_pointer :
    ∀ (env : Env) (bufsize : Nat),
      env.handleMallocOk = true → env.framebufMallocOk = true →
      env.cameraOpenErr = .success → env.infoQueryErr = .success →
      (allied_open_camera_generic env true false bufsize).err ≠ .success →
      (allied_open_camera_generic env true false bufsize).outHolds =
        some env.selfPtr ∧
      (allied_open_camera_generic env true false bufsize).handleFreed = true ∧
      (allied_open_camera_generic env true false bufsize).state = none := by
  intro env bufsize hH hF hO hP herr
  unfold allied_open_camera_generic at herr ⊢
  rw [if_neg (by simp)] at herr ⊢
  rw [if_neg (by simp)] at herr ⊢
  rw [if_neg (by simp)] at herr ⊢
  dsimp only at herr ⊢
  rw [if_neg (by simp [hH])] at herr ⊢
  rw [if_neg (by simp [hF])] at herr ⊢
  rw [if_neg (by simp [hO])] at herr ⊢
  rw [if_neg (by simp [VmbAdjustPktSz, hP])] at herr ⊢
  by_cases hA : (allied_alloc_framebuf env true emptyFrameBuffer bufsize).1 ≠ .success
  · rw [if_pos hA] at herr ⊢
    exact ⟨rfl, rfl, rfl⟩
  · rw [if_neg hA] at herr ⊢
    by_cases hR : (allied_realloc_framebuffer env true
        { acquiring := false, streaming := false,
          framebuf := some (allied_alloc_framebuf env true
            emptyFrameBuffer bufsize).2.1 }).1 ≠ .success
    · rw [if_pos hR] at herr ⊢
      exact ⟨rfl, rfl, rfl⟩
    · rw [if_neg hR] at herr ⊢
      exact absurd rfl herr

theorem c10_witness :
    (allied_open_camera_generic envC10 true false 200).outHolds =
      some envC10.selfPtr ∧
    (allied_open_camera_generic envC10 true false 200).handleFreed = true ∧
    (allied_open_camera_generic envC10 true false 200).state = none :=
  c10_open_failure_leaves_dangling_out_pointer envC10 200 rfl rfl rfl rfl
    (by decide)
